import Mathlib

/-!
Verification development for the session mailbox relay.

The system under study buffers replies pushed by an external workflow
engine, keyed by a client-chosen session identifier, and delivers them to
the originating client via a pull (polling) channel backed by a key-value
store, or via a push (subscription) channel.  A client-side reconciliation
engine merges optimistic local inserts with delivered replies.

The definitions below are a shallow embedding of the TypeScript handlers:

* `submitReplyKV`   — the KV ingress handler (receive-response, KV variant):
  validates the request, reads the existing per-session list, appends the
  new message and writes the whole list back with a TTL.
* `getUpdates`      — the polling delivery handler (get-updates): validates,
  reads the per-session list, deletes the key when the list is non-empty,
  and returns the replies.
* `submitReplyPusher` — the push-variant ingress (receive-response, Pusher
  variant): validates and publishes one event on a per-session channel.
* `callbackPOST`    — the durable push-variant callback route, which checks
  a shared-secret header and inserts a bot row into the chat log.
* `handleSendStart` / `handleSendSuccess` / `handleSendFailure` and
  `onRealtimeInsert` — the client reconciliation engine (ChatInterface).
* A small interleaving semantics (`Sys`, `step`, `run`) in which each
  storage call of an append or drain is split into its two KV operations,
  used to study behaviour under concurrent calls.

Environment records (`KVEnv`, `PusherEnv`) describe which external calls
succeed, time out, or fail, so degraded-mode behaviour is a function of an
explicit environment rather than hidden state.
-/

namespace MailboxRelay

/-- A stored chat message (the `ChatMessage` interface of the api handlers):
session id, reply text and a millisecond timestamp. -/
structure ChatMessage where
  sessionId : String
  reply : String
  timestamp : Nat
deriving DecidableEq, Repr

/-- A value found in the KV store under a key: either the expected array of
messages, or a corrupt value that does not deserialize as an array. -/
inductive KVValue where
  | arr (msgs : List ChatMessage)
  | corrupt
deriving DecidableEq, Repr

/-- The key-value store state: each key holds nothing or a `KVValue`. -/
abbrev Store := String → Option KVValue

/-- The store with no keys set. -/
def emptyStore : Store := fun _ => none

/-- Point update of the store (the effect of `kv.set` / `kv.del`). -/
def Store.set (st : Store) (key : String) (v : Option KVValue) : Store :=
  fun k => if k = key then v else st k

/-- Decoding of a retrieved value, as both handlers do it: `null`/missing
and corrupt (non-array) values are treated as the empty list. -/
def decodeMessages : Option KVValue → List ChatMessage
  | none => []
  | some (.arr l) => l
  | some .corrupt => []

/-- Whether a string contains an ASCII alphanumeric character — the test
`/[a-zA-Z0-9]/.test(sessionId)` of the handlers. -/
def hasAlnum (s : String) : Bool := s.data.any Char.isAlphanum

/-- The JavaScript `String.prototype.trim()`: whitespace stripped from both
ends. -/
def jsTrim (s : String) : String :=
  ⟨((s.data.dropWhile Char.isWhitespace).reverse.dropWhile
      Char.isWhitespace).reverse⟩

/-- Storage key for a session mailbox: `chat:` followed by the trimmed
session id (both KV handlers build the key this way). -/
def mailboxKey (s : String) : String := "chat:" ++ jsTrim s

/-- Pusher channel for a session in the push variant: `private-bot-`
followed by the trimmed session id. -/
def channelName (s : String) : String := "private-bot-" ++ jsTrim s

/-- Outcome of one external KV operation: it returns, it times out (the
thrown message contains `timeout`), or it fails with some other error. -/
inductive OpOutcome where
  | ok
  | timeout
  | err
deriving DecidableEq, Repr

/-- Environment for a handler invocation: whether the store is configured,
whether the lazy client load succeeds, and the outcome of the get, set and
del operations issued during the call. -/
structure KVEnv where
  configured : Bool
  connectOk : Bool
  getOutcome : OpOutcome
  setOutcome : OpOutcome
  delOk : Bool
deriving DecidableEq, Repr

/-- The fully healthy environment: store configured and every operation
succeeds. -/
def happyKV : KVEnv :=
  ⟨true, true, .ok, .ok, true⟩

/-- A `submitReply` request body plus the credential presented with the
request (headers).  `none` models a missing or non-string field. -/
structure SubmitReq where
  sessionId : Option String
  reply : Option String
  secret : Option String
deriving DecidableEq, Repr

/-- Response of the ingress handlers: HTTP status and the `success` flag. -/
structure SubmitResp where
  status : Nat
  success : Bool
deriving DecidableEq, Repr

/-- Response of the polling handler: status, `success`, the list of
`(reply, timestamp)` pairs and `count`. -/
structure FetchResp where
  status : Nat
  success : Bool
  messages : List (String × Nat)
  count : Nat
deriving DecidableEq, Repr

/-- Storage phase of the KV ingress: write the extended list back
(`kv.set key list { ex: TTL }`), with the set outcome deciding the
response.  On a set timeout the handler answers 503, on another set error
500; in both failure cases the store is unchanged. -/
def submitStore (env : KVEnv) (st : Store) (key : String)
    (existing : List ChatMessage) (msg : ChatMessage) : SubmitResp × Store :=
  match env.setOutcome with
  | .ok => (⟨200, true⟩, st.set key (some (.arr (existing ++ [msg]))))
  | .timeout => (⟨503, false⟩, st)
  | .err => (⟨500, false⟩, st)

/-- The KV-variant `receive-response` handler (`submitReply`): field
presence checks, the session-id format check, the configuration check,
then get-existing / append / set-back.  A get timeout yields 503; a
non-timeout get error continues with the empty list. -/
def submitReplyKV (env : KVEnv) (now : Nat) (st : Store) (req : SubmitReq) :
    SubmitResp × Store :=
  match req.sessionId with
  | none => (⟨400, false⟩, st)
  | some s =>
    if s = "" ∨ jsTrim s = "" then (⟨400, false⟩, st)
    else
      match req.reply with
      | none => (⟨400, false⟩, st)
      | some r =>
        if r = "" then (⟨400, false⟩, st)
        else if s.length < 3 ∨ hasAlnum s = false then (⟨400, false⟩, st)
        else if env.configured = false then (⟨503, false⟩, st)
        else if env.connectOk = false then (⟨503, false⟩, st)
        else
          match env.getOutcome with
          | .timeout => (⟨503, false⟩, st)
          | .ok =>
            submitStore env st (mailboxKey s)
              (decodeMessages (st (mailboxKey s))) ⟨jsTrim s, r, now⟩
          | .err =>
            submitStore env st (mailboxKey s) [] ⟨jsTrim s, r, now⟩

/-- The `get-updates` handler (`fetch`): validation, configuration check,
get, then delete-if-non-empty (a delete failure is ignored) and the reply
projection.  A get timeout yields 503; a non-timeout get error yields an
ordinary 200 success with no messages. -/
def getUpdates (env : KVEnv) (st : Store) (q : Option String) :
    FetchResp × Store :=
  match q with
  | none => (⟨400, false, [], 0⟩, st)
  | some s =>
    if s = "" ∨ jsTrim s = "" then (⟨400, false, [], 0⟩, st)
    else if s.length < 3 ∨ hasAlnum s = false then (⟨400, false, [], 0⟩, st)
    else if env.configured = false then (⟨503, false, [], 0⟩, st)
    else if env.connectOk = false then (⟨503, false, [], 0⟩, st)
    else
      match env.getOutcome with
      | .timeout => (⟨503, false, [], 0⟩, st)
      | .err => (⟨200, true, [], 0⟩, st)
      | .ok =>
        let key := mailboxKey s
        let messages := decodeMessages (st key)
        let st' :=
          if messages.isEmpty then st
          else if env.delOk then st.set key none else st
        let replies := messages.map (fun m => (m.reply, m.timestamp))
        (⟨200, true, replies, replies.length⟩, st')

/-- Environment of the push-variant ingress: Pusher configured, and whether
the `trigger` call succeeds. -/
structure PusherEnv where
  configured : Bool
  triggerOk : Bool
deriving DecidableEq, Repr

/-- The Pusher-variant `receive-response` handler: identical validation,
then one publish of `(sessionId.trim, reply, now)` on `channelName`.
Returns the response together with the published event, if any. -/
def submitReplyPusher (env : PusherEnv) (now : Nat) (req : SubmitReq) :
    SubmitResp × Option (String × ChatMessage) :=
  match req.sessionId with
  | none => (⟨400, false⟩, none)
  | some s =>
    if s = "" ∨ jsTrim s = "" then (⟨400, false⟩, none)
    else
      match req.reply with
      | none => (⟨400, false⟩, none)
      | some r =>
        if r = "" then (⟨400, false⟩, none)
        else if s.length < 3 ∨ hasAlnum s = false then (⟨400, false⟩, none)
        else if env.configured = false then (⟨503, false⟩, none)
        else if env.triggerOk then
          (⟨200, true⟩, some (channelName s, ⟨jsTrim s, r, now⟩))
        else (⟨500, false⟩, none)

/-- Module keys of `MODULE_CONFIG` (the valid `module` values of the
durable push variant). -/
def moduleKeys : List String := ["invoice", "kdr", "ga", "kdr_inv", "kdr_sellout"]

/-- Request to the durable-variant callback route: the `x-n8n-secret`
header and the body fields used by the handler (`none` models a missing
field; the binary-file branch is not modelled, no claim depends on it). -/
structure CallbackReq where
  secret : Option String
  user_id : Option String
  module : Option String
  message : Option String
  attachments : List String
deriving DecidableEq, Repr

/-- A row of the durable per-user chat log, as inserted by the callback
route (the sender is always `bot`). -/
structure BotRow where
  user_id : String
  module : String
  sender : String
  message : String
  attachments : List String
deriving DecidableEq, Repr

/-- The callback route's credential check: the request is authorized iff
the expected secret is configured and non-empty and the presented header
is strictly equal to it (`!expectedSecret || secret !== expectedSecret`
rejects). -/
def callbackAuthorized : Option String → Option String → Bool
  | none, _ => false
  | some e, presented => if e = "" then false else presented == some e

/-- The durable push-variant callback handler (`POST /api/n8n/callback`):
secret check first, then field and module validation, then one insert into
the chat log (`dbOk` is whether client creation and the insert succeed).
Returns the HTTP status and the resulting log. -/
def callbackPOST (expected : Option String) (dbOk : Bool)
    (log : List BotRow) (req : CallbackReq) : Nat × List BotRow :=
  if callbackAuthorized expected req.secret = false then (401, log)
  else
    match req.user_id, req.module, req.message with
    | some u, some m, some msg =>
      if u = "" ∨ m = "" ∨ msg = "" then (400, log)
      else if moduleKeys.contains m = false then (400, log)
      else if dbOk then (200, log ++ [⟨u, m, "bot", msg, req.attachments⟩])
      else (500, log)
    | _, _, _ => (400, log)

/-! ## Client reconciliation engine (ChatInterface) -/

/-- Sender of a visible chat entry. -/
inductive Sender where
  | user
  | bot
deriving DecidableEq, Repr

/-- A visible chat entry of the reconciliation engine (the claim-relevant
fields of the `Chat` row: id, owner, module, sender, body). -/
structure Chat where
  id : String
  user_id : String
  module : String
  sender : Sender
  message : String
deriving DecidableEq, Repr

/-- Client-side state: the visible ordered list, the seen-ids set
(`sentMessageIdsRef`) and the error banner. -/
structure ClientState where
  chats : List Chat
  seen : List String
  error : Option String
deriving DecidableEq, Repr

/-- The realtime INSERT subscription handler: ignore other modules, drop
ids already seen, and append bot messages while recording their id; user
rows from the channel are ignored (they are added optimistically). -/
def onRealtimeInsert (module : String) (s : ClientState) (newChat : Chat) :
    ClientState :=
  if newChat.module ≠ module then s
  else if newChat.id ∈ s.seen then s
  else if newChat.sender = .bot then
    { s with seen := s.seen.insert newChat.id, chats := s.chats ++ [newChat] }
  else s

/-- Start of `handleSend`: clear the error banner and append the optimistic
entry to the visible list. -/
def handleSendStart (s : ClientState) (opt : Chat) : ClientState :=
  { s with error := none, chats := s.chats ++ [opt] }

/-- Success path of `handleSend`: record the server-confirmed id in the
seen set and replace the optimistic entry in place by the saved row. -/
def handleSendSuccess (s : ClientState) (optId : String) (saved : Chat) :
    ClientState :=
  { s with seen := s.seen.insert saved.id,
           chats := s.chats.map (fun c => if c.id = optId then saved else c) }

/-- Failure path of `handleSend`: remove the optimistic entry and surface
the error. -/
def handleSendFailure (s : ClientState) (optId : String) (emsg : String) :
    ClientState :=
  { s with chats := s.chats.filter (fun c => c.id ≠ optId),
           error := some emsg }

/-- Number of visible entries carrying a given id. -/
def countId (l : List Chat) (i : String) : Nat :=
  (l.filter (fun c => c.id = i)).length

/-! ## Interleaving semantics of the storage calls

Each ingress (`append`) call is `get` followed by `set` of the whole list,
and each drain call is `get` followed by a conditional `del`; the two
halves of distinct calls can interleave.  The model keeps one session
key's value (`MStore`) and one pending process per in-flight call. -/

/-- One session key's stored payload list (`none` = key absent; a corrupt
value is decoded to `[]` by both handlers before these steps, so the list
view suffices). -/
abbrev MStore := Option (List String)

/-- Kind of an in-flight storage client: an append of one payload, or a
drain. -/
inductive PKind where
  | append (payload : String)
  | drain
deriving DecidableEq, Repr

/-- Progress of one in-flight call: not started, get returned the snapshot,
or finished with an output (appends output `[]`). -/
inductive PPhase where
  | start
  | mid (snap : List String)
  | done (out : List String)
deriving DecidableEq, Repr

/-- Global state: the stored value and every call's progress. -/
structure Sys where
  store : MStore
  procs : List (PKind × PPhase)
deriving DecidableEq, Repr

/-- One atomic KV operation of one call.  An append's get snapshots the
current list; its set writes `snapshot ++ [payload]` over the whole key.
A drain's get snapshots; its second half deletes the key only when the
snapshot was non-empty, and outputs the snapshot. -/
def stepProc (st : MStore) : PKind → PPhase → MStore × PPhase
  | .append _, .start => (st, .mid (st.getD []))
  | .append p, .mid snap => (some (snap ++ [p]), .done [])
  | .drain, .start => (st, .mid (st.getD []))
  | .drain, .mid snap => (if snap.isEmpty then st else none, .done snap)
  | _, .done out => (st, .done out)

/-- Let call `i` perform its next atomic operation. -/
def step (σ : Sys) (i : Nat) : Sys :=
  match σ.procs.get? i with
  | none => σ
  | some (k, ph) =>
    let r := stepProc σ.store k ph
    ⟨r.1, σ.procs.set i (k, r.2)⟩

/-- Run a schedule: the list of call indices, in the order their atomic
operations hit the store. -/
def run (σ : Sys) (sched : List Nat) : Sys :=
  sched.foldl step σ

/-- Initial state: given stored value, all calls not yet started. -/
def initSys (st : MStore) (ks : List PKind) : Sys :=
  ⟨st, ks.map (fun k => (k, .start))⟩

/-- Every call has finished. -/
def allDone (σ : Sys) : Bool :=
  σ.procs.all (fun kp => match kp.2 with | .done _ => true | _ => false)

/-- Output of call `i` (empty unless finished). -/
def procOut (σ : Sys) (i : Nat) : List String :=
  match σ.procs.get? i with
  | some (_, .done out) => out
  | _ => []

/-- An append executed without interleaving: its get and set back-to-back. -/
def appendOnce (st : MStore) (p : String) : MStore :=
  some (st.getD [] ++ [p])

/-- A drain executed without interleaving: get, then del when non-empty;
returns the delivered payloads and the resulting stored value. -/
def drainOnce (st : MStore) : List String × MStore :=
  (st.getD [], if (st.getD []).isEmpty then st else none)

/-! ## The end-to-end pull scenario -/

/-- The §8 end-to-end pull run: submit body `A`, submit body `B`, fetch,
fetch again, all on one session key against an initially empty store and a
healthy environment.  Returns the four responses in order. -/
def pullScenario (s : String) (t₁ t₂ : Nat) :
    SubmitResp × SubmitResp × FetchResp × FetchResp :=
  let p₁ := submitReplyKV happyKV t₁ emptyStore ⟨some s, some "A", none⟩
  let p₂ := submitReplyKV happyKV t₂ p₁.2 ⟨some s, some "B", none⟩
  let p₃ := getUpdates happyKV p₂.2 (some s)
  let p₄ := getUpdates happyKV p₃.2 (some s)
  (p₁.1, p₂.1, p₃.1, p₄.1)

/-! ## Helper lemmas -/

/-- Replacing by id is the identity on a list that does not contain the id. -/
theorem map_replace_of_not_mem (l : List Chat) (i : String) (saved : Chat)
    (h : i ∉ l.map Chat.id) :
    l.map (fun c => if c.id = i then saved else c) = l := by
  induction l with
  | nil => rfl
  | cons a t ih =>
    simp only [List.map_cons, List.mem_cons, not_or] at h ⊢
    rw [if_neg (by simpa using fun hc => h.1 hc.symm), ih h.2]

/-- Filtering out an id not present in the list is the identity. -/
theorem filter_ne_of_not_mem (l : List Chat) (i : String)
    (h : i ∉ l.map Chat.id) :
    l.filter (fun c => c.id ≠ i) = l := by
  induction l with
  | nil => rfl
  | cons a t ih =>
    simp only [List.map_cons, List.mem_cons, not_or] at h
    rw [List.filter_cons_of_pos (by simpa using fun hc => h.1 hc.symm), ih h.2]

/-- A list with no entry of a given id keeps none of them under the
positive filter. -/
theorem filter_id_eq_nil_of_not_mem (l : List Chat) (i : String)
    (h : i ∉ l.map Chat.id) :
    l.filter (fun c => c.id = i) = [] := by
  induction l with
  | nil => rfl
  | cons a t ih =>
    simp only [List.map_cons, List.mem_cons, not_or] at h
    rw [List.filter_cons_of_neg (by simpa using fun hc => h.1 hc.symm), ih h.2]

/-- Sequential appends starting from a stored list produce exactly the
stored list followed by the appended payloads. -/
theorem foldl_appendOnce (ps : List String) (l : List String) :
    ps.foldl appendOnce (some l) = some (l ++ ps) := by
  induction ps generalizing l with
  | nil => simp
  | cons p t ih =>
    simp only [List.foldl_cons, appendOnce, Option.getD_some]
    rw [ih]
    simp

/-! ## Claim theorems -/

/-- C4: for every send of a message by the reconciliation engine, the
provisional entry is inserted immediately at the tail; on success it is
replaced in place by the server-confirmed record (the visible list is the
original list with the confirmed record at the provisional position,
exactly one entry with the confirmed id, none with the provisional id) and
the confirmed id joins the seen set; on failure the provisional entry is
removed (the list is restored) and an error is surfaced. -/
theorem c4_send_reconciliation (s : ClientState) (opt saved : Chat)
    (emsg : String)
    (h1 : opt.id ∉ s.chats.map Chat.id)
    (h2 : saved.id ∉ s.chats.map Chat.id)
    (h3 : saved.id ≠ opt.id) :
    (handleSendStart s opt).chats = s.chats ++ [opt] ∧
    (handleSendSuccess (handleSendStart s opt) opt.id saved).chats
      = s.chats ++ [saved] ∧
    countId (handleSendSuccess (handleSendStart s opt) opt.id saved).chats
      saved.id = 1 ∧
    countId (handleSendSuccess (handleSendStart s opt) opt.id saved).chats
      opt.id = 0 ∧
    saved.id ∈ (handleSendSuccess (handleSendStart s opt) opt.id saved).seen ∧
    (handleSendFailure (handleSendStart s opt) opt.id emsg).chats
      = s.chats ∧
    (handleSendFailure (handleSendStart s opt) opt.id emsg).error
      = some emsg := by
  have hmap : (s.chats ++ [opt]).map
      (fun c => if c.id = opt.id then saved else c) = s.chats ++ [saved] := by
    rw [List.map_append, map_replace_of_not_mem _ _ _ h1]
    simp
  refine ⟨rfl, ?_, ?_, ?_, ?_, ?_, rfl⟩
  · simpa [handleSendSuccess, handleSendStart] using hmap
  · simp only [handleSendSuccess, handleSendStart]
    rw [hmap]
    simp only [countId, List.filter_append,
      filter_id_eq_nil_of_not_mem _ _ h2]
    simp
  · simp only [handleSendSuccess, handleSendStart]
    rw [hmap]
    simp only [countId, List.filter_append,
      filter_id_eq_nil_of_not_mem _ _ h1]
    simp [h3]
  · simp [handleSendSuccess, handleSendStart, List.mem_insert_self]
  · simp only [handleSendFailure, handleSendStart, List.filter_append,
      filter_ne_of_not_mem _ _ h1]
    simp

/-- Witness for C4 at a concrete state: empty visible list, one optimistic
insert with a fresh provisional id, confirmed under a distinct server id. -/
theorem c4_send_reconciliation_witness :
    ("optimistic-1" ∉ ([] : List Chat).map Chat.id ∧
     "uuid-9" ∉ ([] : List Chat).map Chat.id ∧
     "uuid-9" ≠ "optimistic-1") ∧
    (handleSendSuccess
        (handleSendStart ⟨[], [], none⟩
          ⟨"optimistic-1", "u1", "invoice", .user, "hi"⟩)
        "optimistic-1" ⟨"uuid-9", "u1", "invoice", .user, "hi"⟩).chats
      = [⟨"uuid-9", "u1", "invoice", .user, "hi"⟩] :=
  ⟨⟨by decide, by decide, by decide⟩, by
    have h := c4_send_reconciliation ⟨[], [], none⟩
      ⟨"optimistic-1", "u1", "invoice", .user, "hi"⟩
      ⟨"uuid-9", "u1", "invoice", .user, "hi"⟩ "boom"
      (by decide) (by decide) (by decide)
    simpa using h.2.1⟩

/-- C5: a delivered reply (a bot row for the current module) whose id is
already in the seen set leaves the state unchanged; otherwise it is
appended at the tail of the visible list and its id is recorded; repeating
the same delivery is a no-op. -/
theorem c5_delivery_dedup (m : String) (s : ClientState) (r : Chat)
    (hmod : r.module = m) (hbot : r.sender = .bot) :
    (r.id ∈ s.seen → onRealtimeInsert m s r = s) ∧
    (r.id ∉ s.seen →
      (onRealtimeInsert m s r).chats = s.chats ++ [r] ∧
      (onRealtimeInsert m s r).seen = r.id :: s.seen ∧
      (onRealtimeInsert m s r).error = s.error) ∧
    onRealtimeInsert m (onRealtimeInsert m s r) r = onRealtimeInsert m s r := by
  by_cases hmem : r.id ∈ s.seen
  · have hid : onRealtimeInsert m s r = s := by
      simp [onRealtimeInsert, hmod, hmem]
    exact ⟨fun _ => hid, fun hn => absurd hmem hn, by rw [hid, hid]⟩
  · have hins : onRealtimeInsert m s r =
        { s with seen := r.id :: s.seen, chats := s.chats ++ [r] } := by
      simp [onRealtimeInsert, hmod, hmem, hbot, List.insert_of_not_mem]
    refine ⟨fun hc => absurd hc hmem, fun _ => by rw [hins]; exact ⟨rfl, rfl, rfl⟩, ?_⟩
    rw [hins]
    simp [onRealtimeInsert, hmod]

/-- Witness for C5 at a concrete state: a bot reply delivered to a fresh
client state is appended, and delivering it again changes nothing. -/
theorem c5_delivery_dedup_witness :
    ((⟨"b1", "u1", "invoice", .bot, "hello"⟩ : Chat).module = "invoice" ∧
     (⟨"b1", "u1", "invoice", .bot, "hello"⟩ : Chat).sender = .bot) ∧
    onRealtimeInsert "invoice"
      (onRealtimeInsert "invoice" ⟨[], [], none⟩
        ⟨"b1", "u1", "invoice", .bot, "hello"⟩)
      ⟨"b1", "u1", "invoice", .bot, "hello"⟩
      = onRealtimeInsert "invoice" ⟨[], [], none⟩
          ⟨"b1", "u1", "invoice", .bot, "hello"⟩ :=
  ⟨⟨by decide, by decide⟩,
    (c5_delivery_dedup "invoice" ⟨[], [], none⟩
      ⟨"b1", "u1", "invoice", .bot, "hello"⟩ (by decide) (by decide)).2.2⟩

/-- C7: a `submitReply` whose session key is shorter than 3 characters or
contains no alphanumeric character is answered 400 with the store left
untouched, whatever the environment, the store contents and the other
request fields — the storage layer is never consulted. -/
theorem c7_invalid_session_rejected_before_store
    (env : KVEnv) (now : Nat) (st : Store) (rep sec : Option String)
    (s : String) (h : s.length < 3 ∨ hasAlnum s = false) :
    submitReplyKV env now st ⟨some s, rep, sec⟩ = (⟨400, false⟩, st) := by
  unfold submitReplyKV
  by_cases hb : s = "" ∨ jsTrim s = ""
  · simp [hb]
  · cases rep with
    | none => simp [hb]
    | some r =>
      by_cases hr : r = ""
      · simp [hb, hr]
      · simp [hb, hr, h]

/-- Witness for C7: the two-character key `s1` (the one of the §8 scenario)
is rejected with 400 and the empty store is returned unchanged. -/
theorem c7_invalid_session_rejected_before_store_witness :
    (("s1").length < 3 ∨ hasAlnum "s1" = false) ∧
    submitReplyKV happyKV 0 emptyStore ⟨some "s1", some "A", none⟩
      = (⟨400, false⟩, emptyStore) :=
  ⟨by decide,
    c7_invalid_session_rejected_before_store happyKV 0 emptyStore
      (some "A") none "s1" (by decide)⟩

/-- C9: when the value stored under the session's key is corrupt (not an
array), the ingress treats it as an empty list and stores a fresh
one-element list with a 200 success, and the polling handler completes
normally with a 200 empty success, leaving the store unchanged — the
corruption is never surfaced as an error. -/
theorem c9_corrupt_value_self_healing (s r : String) (now : Nat) (st : Store)
    (hb : ¬(s = "" ∨ jsTrim s = ""))
    (hf : ¬(s.length < 3 ∨ hasAlnum s = false))
    (hr : ¬(r = ""))
    (hc : st (mailboxKey s) = some .corrupt) :
    (submitReplyKV happyKV now st ⟨some s, some r, none⟩).1 = ⟨200, true⟩ ∧
    (submitReplyKV happyKV now st ⟨some s, some r, none⟩).2 (mailboxKey s)
      = some (.arr [⟨jsTrim s, r, now⟩]) ∧
    (getUpdates happyKV st (some s)).1 = ⟨200, true, [], 0⟩ ∧
    (getUpdates happyKV st (some s)).2 = st := by
  refine ⟨?_, ?_, ?_, ?_⟩ <;>
    simp [submitReplyKV, getUpdates, happyKV, hb, hf, hr, hc,
      submitStore, Store.set, decodeMessages]

/-- Witness for C9 at a concrete corrupt store. -/
theorem c9_corrupt_value_self_healing_witness :
    (¬("abc" = "" ∨ jsTrim "abc" = "") ∧
     ¬(("abc").length < 3 ∨ hasAlnum "abc" = false) ∧
     ¬("hi" = "") ∧
     (emptyStore.set (mailboxKey "abc") (some .corrupt)) (mailboxKey "abc")
       = some .corrupt) ∧
    (getUpdates happyKV (emptyStore.set (mailboxKey "abc") (some .corrupt))
      (some "abc")).1 = ⟨200, true, [], 0⟩ :=
  ⟨⟨by decide, by decide, by decide, by decide⟩,
    (c9_corrupt_value_self_healing "abc" "hi" 0
      (emptyStore.set (mailboxKey "abc") (some .corrupt))
      (by decide) (by decide) (by decide) (by decide)).2.2.1⟩

/-- C10: both handlers address the mailbox under the trimmed key (and the
push variant under the trimmed channel), so two session keys equal after
trimming denote the same mailbox — a message submitted under one is
fetched under the other — while the length/alphanumeric validation is
applied to the untrimmed string: `a␣␣` passes it although its trimmed form
`a` would not. -/
theorem c10_trimmed_key_addressing (s₁ s₂ : String) (t : Nat)
    (ht : jsTrim s₁ = jsTrim s₂)
    (hb₁ : ¬(s₁ = "" ∨ jsTrim s₁ = ""))
    (hf₁ : ¬(s₁.length < 3 ∨ hasAlnum s₁ = false))
    (hb₂ : ¬(s₂ = "" ∨ jsTrim s₂ = ""))
    (hf₂ : ¬(s₂.length < 3 ∨ hasAlnum s₂ = false)) :
    mailboxKey s₁ = mailboxKey s₂ ∧
    channelName s₁ = channelName s₂ ∧
    (getUpdates happyKV
        (submitReplyKV happyKV t emptyStore ⟨some s₁, some "hi", none⟩).2
        (some s₂)).1 = ⟨200, true, [("hi", t)], 1⟩ ∧
    (¬(("a  ").length < 3 ∨ hasAlnum "a  " = false) ∧
     ((jsTrim "a  ").length < 3 ∨ hasAlnum (jsTrim "a  ") = false)) := by
  have hkey : mailboxKey s₂ = mailboxKey s₁ := by
    simp [mailboxKey, ht]
  refine ⟨hkey.symm, by simp [channelName, ht], ?_, by decide, by decide⟩
  simp [submitReplyKV, getUpdates, happyKV, hb₁, hf₁, hb₂, hf₂, hkey,
    submitStore, Store.set, decodeMessages, emptyStore]

/-- Witness for C10: keys `␣abc` and `abc␣` differ only in surrounding
whitespace and the message crosses between them. -/
theorem c10_trimmed_key_addressing_witness :
    (jsTrim " abc" = jsTrim "abc ") ∧
    (getUpdates happyKV
        (submitReplyKV happyKV 5 emptyStore ⟨some " abc", some "hi", none⟩).2
        (some "abc ")).1 = ⟨200, true, [("hi", 5)], 1⟩ :=
  ⟨by decide,
    (c10_trimmed_key_addressing " abc" "abc " 5 (by decide) (by decide)
      (by decide) (by decide) (by decide)).2.2.1⟩

/-- C1 counterexample: the claimed scenario uses session key `s1`, but
that key has length 2 and the handlers require at least 3 characters, so
both submits and both fetches of the scenario are rejected with 400 — in
particular the submits are not successful and the first fetch does not
return the two messages with `success:true`. -/
theorem c1_scenario_key_s1_rejected :
    pullScenario "s1" 1 2
      = (⟨400, false⟩, ⟨400, false⟩, ⟨400, false, [], 0⟩,
         ⟨400, false, [], 0⟩) ∧
    ("s1").length < 3 := by
  exact ⟨by decide, by decide⟩

/-- C1 amended: for any session key accepted by the format validation
(length at least 3, at least one alphanumeric character — e.g. `s1x`
instead of the claim's `s1`), submitting bodies `A` then `B` succeeds, the
first fetch returns `success:true` with `[A, B]` in order and count 2, and
the immediately following fetch returns `success:true`, no messages,
count 0. -/
theorem c1_scenario_valid_key (s : String) (t₁ t₂ : Nat)
    (hb : ¬(s = "" ∨ jsTrim s = ""))
    (hf : ¬(s.length < 3 ∨ hasAlnum s = false)) :
    pullScenario s t₁ t₂
      = (⟨200, true⟩, ⟨200, true⟩, ⟨200, true, [("A", t₁), ("B", t₂)], 2⟩,
         ⟨200, true, [], 0⟩) := by
  simp [pullScenario, submitReplyKV, getUpdates, happyKV, hb, hf,
    submitStore, Store.set, decodeMessages, emptyStore]

/-- Witness for the amended C1 at the concrete key `s1x`. -/
theorem c1_scenario_valid_key_witness :
    (¬("s1x" = "" ∨ jsTrim "s1x" = "") ∧
     ¬(("s1x").length < 3 ∨ hasAlnum "s1x" = false)) ∧
    pullScenario "s1x" 1 2
      = (⟨200, true⟩, ⟨200, true⟩, ⟨200, true, [("A", 1), ("B", 2)], 2⟩,
         ⟨200, true, [], 0⟩) :=
  ⟨⟨by decide, by decide⟩,
    c1_scenario_valid_key "s1x" 1 2 (by decide) (by decide)⟩

/-- C2 counterexample: the append is a get-then-set of the whole stored
list, not an atomic list-append, so two concurrent appends can interleave
their halves.  In the complete schedule `[0, 1, 0, 1]` both calls snapshot
the empty list before either writes; the second set overwrites the first,
a subsequent drain returns only `B`, and payload `A` is lost. -/
theorem c2_concurrent_append_lost_update :
    let σ := run (initSys none [.append "A", .append "B"]) [0, 1, 0, 1]
    allDone σ = true ∧ σ.store = some ["B"] ∧
    (drainOnce σ.store).1 = ["B"] ∧ "A" ∉ (drainOnce σ.store).1 := by
  decide

/-- C2 amended: the append primitive is a read-modify-write of the whole
blob; when the N append calls do not overlap (each one's get and set run
back-to-back), a subsequent drain returns all N payloads, in call order,
each exactly once — the guarantee holds sequentially but not under
concurrent interleavings. -/
theorem c2_sequential_append_all_delivered (ps : List String) (st : MStore) :
    (drainOnce (ps.foldl appendOnce st)).1 = st.getD [] ++ ps := by
  cases ps with
  | nil => simp [drainOnce]
  | cons p t =>
    simp only [List.foldl_cons, appendOnce]
    rw [foldl_appendOnce]
    simp [drainOnce]

/-- C3 counterexample: drain is a get followed by a conditional del, not an
atomic read-and-clear.  First run: two drains against a mailbox holding
`a` interleave as `[0, 1, 0, 1]` and both return `a` — double delivery.
Second run: an append of `b` lands between a drain's get and its del
(schedule `[0, 1, 1, 0]`); the drain returns only `a` and the del then
erases the key, so `b` is in neither this drain nor any later one. -/
theorem c3_interleaved_drain_double_delivery :
    (let σ := run (initSys (some ["a"]) [.drain, .drain]) [0, 1, 0, 1]
     allDone σ = true ∧ procOut σ 0 = ["a"] ∧ procOut σ 1 = ["a"]) ∧
    (let σ := run (initSys (some ["a"]) [.drain, .append "b"]) [0, 1, 1, 0]
     allDone σ = true ∧ procOut σ 0 = ["a"] ∧ "b" ∉ procOut σ 0 ∧
     σ.store = none) := by
  decide

/-- C3 amended: drain is get-then-del (the del skipped when the read list
is empty); when drains do not interleave and the del succeeds, a drain
returns the whole stored list and the immediately following drain returns
nothing, so no payload is ever handed out by two sequential drains;
interleaved drains can both return the same payload and an append racing a
drain can be discarded. -/
theorem c3_sequential_drain_no_redelivery (st : MStore) :
    (drainOnce st).1 = st.getD [] ∧
    (drainOnce (drainOnce st).2).1 = [] := by
  refine ⟨rfl, ?_⟩
  cases st with
  | none => rfl
  | some l => cases l <;> simp [drainOnce]

/-- C6 counterexample: a `submitReply` presenting no credential at all is
accepted: the mailbox ingress performs no secret comparison, answers 200
`success:true` (neither 401 nor 403) and appends a mailbox entry. -/
theorem c6_submit_ignores_credential :
    let p := submitReplyKV happyKV 7 emptyStore ⟨some "abc", some "hello", none⟩
    p.1 = ⟨200, true⟩ ∧ p.1.status ≠ 401 ∧ p.1.status ≠ 403 ∧
    p.2 (mailboxKey "abc") = some (.arr [⟨"abc", "hello", 7⟩]) := by
  decide

/-- C6 amended: the mailbox `submitReply` handlers (KV and Pusher variant)
perform no credential check — their behaviour is independent of the
presented secret; only the durable push-variant callback endpoint
validates the `x-n8n-secret` header, rejecting a wrong or missing value
with 401 and inserting nothing into the chat log. -/
theorem c6_credential_check_amended :
    (∀ (env : KVEnv) (now : Nat) (st : Store)
        (sid rep sec sec' : Option String),
      submitReplyKV env now st ⟨sid, rep, sec⟩
        = submitReplyKV env now st ⟨sid, rep, sec'⟩) ∧
    (∀ (env : PusherEnv) (now : Nat) (sid rep sec sec' : Option String),
      submitReplyPusher env now ⟨sid, rep, sec⟩
        = submitReplyPusher env now ⟨sid, rep, sec'⟩) ∧
    (∀ (expected : Option String) (dbOk : Bool) (log : List BotRow)
        (req : CallbackReq),
      callbackAuthorized expected req.secret = false →
      callbackPOST expected dbOk log req = (401, log)) := by
  refine ⟨fun env now st sid rep sec sec' => rfl,
    fun env now sid rep sec sec' => rfl, fun expected dbOk log req h => ?_⟩
  simp [callbackPOST, h]

/-- Witness for the amended C6: a callback with a missing secret is
answered 401 and the log stays empty. -/
theorem c6_credential_check_amended_witness :
    callbackAuthorized (some "k1")
      (CallbackReq.mk none (some "u") (some "invoice") (some "m") []).secret
      = false ∧
    callbackPOST (some "k1") true []
      ⟨none, some "u", some "invoice", some "m", []⟩ = (401, []) :=
  ⟨by decide,
    c6_credential_check_amended.2.2 (some "k1") true []
      ⟨none, some "u", some "invoice", some "m", []⟩ (by decide)⟩

/-- C8 counterexample: a get failure whose error message does not contain
`timeout` — for instance a fast connection-refused from an unreachable
store — is answered as an ordinary empty success (status 200,
`success:true`, no messages), not as a 503 unavailable signal. -/
theorem c8_get_error_reported_as_success :
    (getUpdates ⟨true, true, .err, .ok, true⟩ emptyStore (some "abc")).1
      = ⟨200, true, [], 0⟩ ∧
    (getUpdates ⟨true, true, .err, .ok, true⟩ emptyStore
      (some "abc")).1.status ≠ 503 := by
  decide

/-- C8 amended: when the store is unconfigured, the client fails to load,
or the get operation times out, `fetch` returns the explicit unavailable
signal — status 503, `success:false`, `messages:[]`, `count:0` — without
touching the store; a non-timeout get failure is instead reported as an
ordinary empty 200 success. -/
theorem c8_unavailable_503_amended (env : KVEnv) (st : Store) (s : String)
    (hb : ¬(s = "" ∨ jsTrim s = ""))
    (hf : ¬(s.length < 3 ∨ hasAlnum s = false))
    (h : env.configured = false ∨ env.connectOk = false ∨
         env.getOutcome = .timeout) :
    getUpdates env st (some s) = (⟨503, false, [], 0⟩, st) := by
  unfold getUpdates
  rcases env with ⟨c, k, g, so, d⟩
  rcases h with h | h | h
  · subst h
    simp [hb, hf]
  · subst h
    cases c <;> simp [hb, hf]
  · subst h
    cases c <;> cases k <;> simp [hb, hf]

/-- Witness for the amended C8: unconfigured store, valid key `abc`. -/
theorem c8_unavailable_503_amended_witness :
    (¬("abc" = "" ∨ jsTrim "abc" = "") ∧
     ¬(("abc").length < 3 ∨ hasAlnum "abc" = false) ∧
     ((⟨false, true, .ok, .ok, true⟩ : KVEnv).configured = false ∨
      (⟨false, true, .ok, .ok, true⟩ : KVEnv).connectOk = false ∨
      (⟨false, true, .ok, .ok, true⟩ : KVEnv).getOutcome = .timeout)) ∧
    getUpdates ⟨false, true, .ok, .ok, true⟩ emptyStore (some "abc")
      = (⟨503, false, [], 0⟩, emptyStore) :=
  ⟨⟨by decide, by decide, Or.inl rfl⟩,
    c8_unavailable_503_amended ⟨false, true, .ok, .ok, true⟩ emptyStore "abc"
      (by decide) (by decide) (Or.inl rfl)⟩

end MailboxRelay
